import Mathlib

/-!
# SenTrack — verification of the live aggregation engine

Shallow embedding of the SenTrack sentiment-aggregation core
(`vibe_score.py`, `news_data.py`, `app.py`) and proofs of the
specification's claims about it.

Python floats are modelled as rationals (`ℚ`), dictionaries with a fixed
field set as structures (a field the code may leave absent becomes an
`Option`), Python sets and dicts as lists with membership / `lookup`, and
the wall clock as an explicit `now : ℚ` parameter threaded through any
function that reads it.
-/

namespace SenTrack

set_option maxRecDepth 80000

/-! ## vibe_score.py -/

/-- One element of the `sentiments` list passed to `calculate_vibe`:
a dict `{"label": str, "confidence": float}`.  `confidence := none`
models a record in which the `"confidence"` key is absent
(the code reads it with `s.get("confidence", 0.5)`). -/
structure SentimentItem where
  label : String
  confidence : Option ℚ
deriving DecidableEq, Repr

/-- Model of `_LABEL_VALUE.get(s["label"], 0.5)` (vibe_score.py lines 9–13 and 54):
the dict `{"positive": 1.0, "neutral": 0.5, "negative": 0.0}` read with
default `0.5`, rendered as a decision chain over the three keys. -/
def labelValue (label : String) : ℚ :=
  if label = "positive" then 1
  else if label = "neutral" then 1/2
  else if label = "negative" then 0
  else 1/2

/-- Model of `s.get("confidence", 0.5)` (vibe_score.py line 55). -/
def itemConf (s : SentimentItem) : ℚ := s.confidence.getD (1/2)

/-- The `weighted_sum` accumulated by the loop of vibe_score.py lines 53–57. -/
def weightedSum (ss : List SentimentItem) : ℚ :=
  (ss.map (fun s => labelValue s.label * itemConf s)).sum

/-- The `weight_total` accumulated by the loop of vibe_score.py lines 53–57. -/
def weightTotal (ss : List SentimentItem) : ℚ :=
  (ss.map itemConf).sum

/-- Constant `_ALPHA` — EMA smoothing factor (vibe_score.py line 16). -/
def ALPHA : ℚ := 3/10

/-- Function `classify` (vibe_score.py lines 19–25): 0–100 score → market sentiment. -/
def classify (score : ℚ) : String :=
  if score ≤ 30 then "Bearish"
  else if score ≤ 60 then "Neutral"
  else "Bullish"

/-- Python's `round` to an integer: round half to even (banker's rounding),
idealized over ℚ. -/
def roundHalfEven (q : ℚ) : ℤ :=
  if q - (⌊q⌋ : ℚ) < 1/2 then ⌊q⌋
  else if 1/2 < q - (⌊q⌋ : ℚ) then ⌊q⌋ + 1
  else if ⌊q⌋ % 2 = 0 then ⌊q⌋ else ⌊q⌋ + 1

/-- Python's `round(q, 2)`, idealized over ℚ. -/
def round2 (q : ℚ) : ℚ := (roundHalfEven (q * 100) : ℚ) / 100

/-- Expression `raw = (weighted_sum / weight_total) * 100 if weight_total > 0 else 50.0`
(vibe_score.py line 59). -/
def rawOf (ss : List SentimentItem) : ℚ :=
  if 0 < weightTotal ss then weightedSum ss / weightTotal ss * 100 else 50

/-- The dict returned by `calculate_vibe`.  The `timestamp` field holds the
wall-clock value the function was run at. -/
structure VibeResult where
  score : ℚ
  classification : String
  timestamp : ℚ
  sample_size : ℕ
  raw_score : ℚ
deriving DecidableEq, Repr

/-- Function `calculate_vibe` (vibe_score.py lines 28–75), with the wall clock passed
in explicitly as `now`. -/
def calculate_vibe (sentiments : List SentimentItem) (previous_score : Option ℚ)
    (now : ℚ) : VibeResult :=
  if sentiments.isEmpty then
    { score := 50, classification := "Neutral", timestamp := now,
      sample_size := 0, raw_score := 50 }
  else
    let raw := rawOf sentiments
    let smoothed :=
      match previous_score with
      | some p => ALPHA * raw + (1 - ALPHA) * p
      | none => raw
    let score := round2 (min 100 (max 0 smoothed))
    { score := score, classification := classify score, timestamp := now,
      sample_size := sentiments.length, raw_score := round2 raw }

/-! ### Basic bounds for the weighted mean -/

theorem labelValue_nonneg (l : String) : 0 ≤ labelValue l := by
  unfold labelValue
  split_ifs <;> norm_num

theorem labelValue_le_one (l : String) : labelValue l ≤ 1 := by
  unfold labelValue
  split_ifs <;> norm_num

theorem weightedSum_nonneg (ss : List SentimentItem)
    (hc : ∀ s ∈ ss, 0 ≤ itemConf s) : 0 ≤ weightedSum ss := by
  refine List.sum_nonneg ?_
  intro x hx
  obtain ⟨s, hs, rfl⟩ := List.mem_map.mp hx
  exact mul_nonneg (labelValue_nonneg s.label) (hc s hs)

theorem weightedSum_le_weightTotal (ss : List SentimentItem)
    (hc : ∀ s ∈ ss, 0 ≤ itemConf s) : weightedSum ss ≤ weightTotal ss := by
  unfold weightedSum weightTotal
  refine List.sum_le_sum ?_
  intro s hs
  calc labelValue s.label * itemConf s ≤ 1 * itemConf s :=
        mul_le_mul_of_nonneg_right (labelValue_le_one s.label) (hc s hs)
    _ = itemConf s := one_mul _

theorem rawOf_bounds (ss : List SentimentItem)
    (hc : ∀ s ∈ ss, 0 ≤ itemConf s) : 0 ≤ rawOf ss ∧ rawOf ss ≤ 100 := by
  unfold rawOf
  by_cases h : 0 < weightTotal ss
  · simp only [h, if_true]
    have hws := weightedSum_nonneg ss hc
    have hle := weightedSum_le_weightTotal ss hc
    have hq : weightedSum ss / weightTotal ss ≤ 1 := (div_le_one h).mpr hle
    have hq0 : 0 ≤ weightedSum ss / weightTotal ss := div_nonneg hws h.le
    constructor
    · positivity
    · nlinarith
  · simp only [h, if_false]
    norm_num

/-- C1: for a non-empty classification list the raw score is the
confidence-weighted mean `100 * Σ(value_i * confidence_i) / Σ(confidence_i)`
(with value map positive ↦ 1, neutral ↦ 0.5, negative ↦ 0), is `50` when the
total confidence is `0`, the empty input yields the neutral default record
`score = 50, classification = "Neutral", sample_size = 0, raw_score = 50`,
and with non-negative confidences the raw score lies in `[0, 100]`. -/
theorem C1_raw_weighted_mean (ss : List SentimentItem) (p : Option ℚ) (t : ℚ)
    (hc : ∀ s ∈ ss, 0 ≤ itemConf s) :
    (0 < weightTotal ss →
      rawOf ss = 100 * weightedSum ss / weightTotal ss)
    ∧ (weightTotal ss = 0 → rawOf ss = 50)
    ∧ labelValue "positive" = 1 ∧ labelValue "neutral" = 1/2
    ∧ labelValue "negative" = 0
    ∧ calculate_vibe [] p t =
        { score := 50, classification := "Neutral", timestamp := t,
          sample_size := 0, raw_score := 50 }
    ∧ 0 ≤ rawOf ss ∧ rawOf ss ≤ 100 := by
  refine ⟨?_, ?_, by simp [labelValue], by simp [labelValue],
    by simp [labelValue], rfl, rawOf_bounds ss hc⟩
  · intro h
    unfold rawOf
    simp only [h, if_true]
    ring
  · intro h
    unfold rawOf
    simp [h]

/-- Witness for C1 at a concrete input. -/
theorem C1_raw_weighted_mean_witness :
    (∀ s ∈ ([⟨"positive", some (9/10)⟩, ⟨"negative", some (1/2)⟩,
             ⟨"neutral", some (1/2)⟩] : List SentimentItem), 0 ≤ itemConf s)
    ∧ ((0 < weightTotal [⟨"positive", some (9/10)⟩, ⟨"negative", some (1/2)⟩,
             ⟨"neutral", some (1/2)⟩] →
      rawOf [⟨"positive", some (9/10)⟩, ⟨"negative", some (1/2)⟩,
             ⟨"neutral", some (1/2)⟩]
        = 100 * weightedSum [⟨"positive", some (9/10)⟩, ⟨"negative", some (1/2)⟩,
             ⟨"neutral", some (1/2)⟩] / weightTotal [⟨"positive", some (9/10)⟩,
             ⟨"negative", some (1/2)⟩, ⟨"neutral", some (1/2)⟩])
    ∧ (weightTotal [⟨"positive", some (9/10)⟩, ⟨"negative", some (1/2)⟩,
             ⟨"neutral", some (1/2)⟩] = 0 →
        rawOf [⟨"positive", some (9/10)⟩, ⟨"negative", some (1/2)⟩,
             ⟨"neutral", some (1/2)⟩] = 50)
    ∧ labelValue "positive" = 1 ∧ labelValue "neutral" = 1/2
    ∧ labelValue "negative" = 0
    ∧ calculate_vibe [] none 0 =
        { score := 50, classification := "Neutral", timestamp := 0,
          sample_size := 0, raw_score := 50 }
    ∧ 0 ≤ rawOf [⟨"positive", some (9/10)⟩, ⟨"negative", some (1/2)⟩,
             ⟨"neutral", some (1/2)⟩]
    ∧ rawOf [⟨"positive", some (9/10)⟩, ⟨"negative", some (1/2)⟩,
             ⟨"neutral", some (1/2)⟩] ≤ 100) :=
  ⟨by intro s hs; fin_cases hs <;> norm_num [itemConf],
   C1_raw_weighted_mean _ none 0
     (by intro s hs; fin_cases hs <;> norm_num [itemConf])⟩


/-- C2: the smoothed score is `ALPHA*raw + (1-ALPHA)*previous` (`ALPHA = 0.3`)
when a previous score exists, `raw` otherwise, then clamped to `[0,100]` and
rounded to 2 decimals; `previous = 40`, `raw = 80` gives score `52`. -/
theorem C2_ema_smoothing (ss : List SentimentItem) (p t : ℚ) (hne : ss ≠ []) :
    (calculate_vibe ss (some p) t).score
        = round2 (min 100 (max 0 (ALPHA * rawOf ss + (1 - ALPHA) * p)))
    ∧ (calculate_vibe ss none t).score = round2 (min 100 (max 0 (rawOf ss)))
    ∧ ALPHA = 3/10
    ∧ rawOf [⟨"positive", some (3/5)⟩, ⟨"neutral", some (2/5)⟩] = 80
    ∧ (calculate_vibe [⟨"positive", some (3/5)⟩, ⟨"neutral", some (2/5)⟩]
        (some 40) t).score = 52 := by
  refine ⟨?_, ?_, by norm_num [ALPHA], ?_, ?_⟩
  · cases ss with
    | nil => exact absurd rfl hne
    | cons a l => rfl
  · cases ss with
    | nil => exact absurd rfl hne
    | cons a l => rfl
  · simp [rawOf, weightedSum, weightTotal, itemConf, labelValue]
    norm_num
  · simp [calculate_vibe, rawOf, weightedSum, weightTotal, itemConf,
      labelValue, ALPHA]
    norm_num [round2, roundHalfEven, Int.fract]

/-- Witness for C2 at a concrete input. -/
theorem C2_ema_smoothing_witness :
    (([⟨"positive", some (3/5)⟩, ⟨"neutral", some (2/5)⟩] : List SentimentItem) ≠ [])
    ∧ ((calculate_vibe [⟨"positive", some (3/5)⟩, ⟨"neutral", some (2/5)⟩]
          (some 40) 0).score
        = round2 (min 100 (max 0 (ALPHA
            * rawOf [⟨"positive", some (3/5)⟩, ⟨"neutral", some (2/5)⟩]
            + (1 - ALPHA) * 40)))
    ∧ (calculate_vibe [⟨"positive", some (3/5)⟩, ⟨"neutral", some (2/5)⟩]
          none 0).score
        = round2 (min 100 (max 0 (rawOf [⟨"positive", some (3/5)⟩,
            ⟨"neutral", some (2/5)⟩])))
    ∧ ALPHA = 3/10
    ∧ rawOf [⟨"positive", some (3/5)⟩, ⟨"neutral", some (2/5)⟩] = 80
    ∧ (calculate_vibe [⟨"positive", some (3/5)⟩, ⟨"neutral", some (2/5)⟩]
        (some 40) 0).score = 52) :=
  ⟨by simp, C2_ema_smoothing _ 40 0 (by simp)⟩

/-- C6: `calculate_vibe` is deterministic — identical inputs give identical
outputs — and holds no state: every output field other than the wall-clock
timestamp depends only on the classification list and the previous score. -/
theorem C6_deterministic_stateless (ss : List SentimentItem) (p : Option ℚ)
    (t t' : ℚ) :
    calculate_vibe ss p t = calculate_vibe ss p t
    ∧ (calculate_vibe ss p t).score = (calculate_vibe ss p t').score
    ∧ (calculate_vibe ss p t).classification
        = (calculate_vibe ss p t').classification
    ∧ (calculate_vibe ss p t).sample_size = (calculate_vibe ss p t').sample_size
    ∧ (calculate_vibe ss p t).raw_score = (calculate_vibe ss p t').raw_score :=
  ⟨rfl, by cases ss <;> rfl, by cases ss <;> rfl, by cases ss <;> rfl,
   by cases ss <;> rfl⟩
/-- Expression `"Bullish" if avg_score >= 60 else "Bearish" if avg_score <= 40 else
"Neutral"` — the classification used by the live-interval scoring path
(app.py lines 354–358) and by the contribute scan (app.py line 777). -/
def liveClassify (avg_score : ℚ) : String :=
  if 60 ≤ avg_score then "Bullish"
  else if avg_score ≤ 40 then "Bearish"
  else "Neutral"

/-- C7: the offline-mode classifier maps a score to Bearish iff it is ≤ 30,
to Bullish iff it is > 60 and to Neutral otherwise, while the live-interval
path maps it to Bearish iff ≤ 40, to Bullish iff ≥ 60 and to Neutral
otherwise; at score 35 the two paths disagree. -/
theorem C7_two_threshold_policies (score : ℚ) :
    (classify score = "Bearish" ↔ score ≤ 30)
    ∧ (classify score = "Bullish" ↔ 60 < score)
    ∧ (classify score = "Neutral" ↔ 30 < score ∧ score ≤ 60)
    ∧ (liveClassify score = "Bearish" ↔ score ≤ 40)
    ∧ (liveClassify score = "Bullish" ↔ 60 ≤ score)
    ∧ (liveClassify score = "Neutral" ↔ 40 < score ∧ score < 60)
    ∧ classify 35 = "Neutral" ∧ liveClassify 35 = "Bearish" := by
  refine ⟨?_, ?_, ?_, ?_, ?_, ?_, ?_, ?_⟩
  · unfold classify; split_ifs <;> simp_all
  · unfold classify; split_ifs <;> simp_all <;> linarith
  · unfold classify; split_ifs <;> simp_all <;> linarith
  · unfold liveClassify; split_ifs <;> simp_all <;> linarith
  · unfold liveClassify; split_ifs <;> simp_all <;> linarith
  · unfold liveClassify; split_ifs <;> simp_all <;> try (intro h; linarith)
  · norm_num [classify]
  · norm_num [liveClassify]

theorem weightedSum_append (a b : List SentimentItem) :
    weightedSum (a ++ b) = weightedSum a + weightedSum b := by
  simp [weightedSum]

theorem weightTotal_append (a b : List SentimentItem) :
    weightTotal (a ++ b) = weightTotal a + weightTotal b := by
  simp [weightTotal]

theorem calculate_vibe_congr (ss ss' : List SentimentItem) (p : Option ℚ)
    (t : ℚ) (hlen : ss.length = ss'.length)
    (hws : weightedSum ss = weightedSum ss')
    (hwt : weightTotal ss = weightTotal ss') :
    calculate_vibe ss p t = calculate_vibe ss' p t := by
  cases ss with
  | nil =>
    cases ss' with
    | nil => rfl
    | cons b m => simp at hlen
  | cons a l =>
    cases ss' with
    | nil => simp at hlen
    | cons b m =>
      simp only [calculate_vibe, List.isEmpty_cons, Bool.false_eq_true,
        if_false, rawOf, hws, hwt, hlen]

/-- C10: a label outside {positive, neutral, negative} is valued as the
neutral `0.5` rather than rejected, a record whose confidence field is
absent is read as confidence `0.5` (so swapping an absent confidence for an
explicit `0.5` anywhere in the list leaves the result unchanged), and
`calculate_vibe` is a total function over arbitrary label strings. -/
theorem C10_total_defaults (lbl : String) (pre suf : List SentimentItem)
    (p : Option ℚ) (t : ℚ)
    (h : lbl ≠ "positive" ∧ lbl ≠ "neutral" ∧ lbl ≠ "negative") :
    labelValue lbl = 1/2
    ∧ itemConf ⟨lbl, none⟩ = 1/2
    ∧ (∀ l2 : String, calculate_vibe (pre ++ ⟨l2, none⟩ :: suf) p t
        = calculate_vibe (pre ++ ⟨l2, some (1/2)⟩ :: suf) p t) := by
  obtain ⟨h1, h2, h3⟩ := h
  refine ⟨by simp [labelValue, h1, h2, h3], rfl, ?_⟩
  intro l2
  refine calculate_vibe_congr _ _ p t (by simp) ?_ ?_
  · simp only [weightedSum_append]
    simp [weightedSum, itemConf]
  · simp only [weightTotal_append]
    simp [weightTotal, itemConf]

/-- Witness for C10 at a concrete input. -/
theorem C10_total_defaults_witness :
    (("bogus" ≠ "positive" ∧ "bogus" ≠ "neutral" ∧ "bogus" ≠ "negative")
      : Prop)
    ∧ (labelValue "bogus" = 1/2
    ∧ itemConf ⟨"bogus", none⟩ = 1/2
    ∧ (∀ l2 : String, calculate_vibe ([⟨"positive", some 1⟩]
          ++ ⟨l2, none⟩ :: [⟨"negative", some (1/2)⟩]) none 0
        = calculate_vibe ([⟨"positive", some 1⟩]
          ++ ⟨l2, some (1/2)⟩ :: [⟨"negative", some (1/2)⟩]) none 0)) :=
  ⟨by refine ⟨?_, ?_, ?_⟩ <;> decide,
   C10_total_defaults "bogus" [⟨"positive", some 1⟩]
     [⟨"negative", some (1/2)⟩] none 0
     (by refine ⟨?_, ?_, ?_⟩ <;> decide)⟩

/-! ## app.py — live automation: collection phase (lines 239–301)

The background task `live_automation_background_task` keeps a raw-text
buffer `live_collection_buffer`, a dedup set `seen_texts` and a bounded
realtime feed `live_realtime_news`.  The per-text body of the fetch loop
(lines 272–298) is `addText`; one fetch's worth of texts is folded by
`addTexts`.  The `break` on a full buffer is modelled as a per-text skip:
once the buffer is at capacity every later text of the batch is skipped
by the same size test, so the resulting state is identical. -/

/-- Constant `MAX_ARTICLES` (app.py line 243). -/
def MAX_ARTICLES : ℕ := 120

/-- Constant `MIN_ARTICLES` (app.py line 242). -/
def MIN_ARTICLES : ℕ := 30

/-- Constant `SAMPLE_SIZE` (app.py line 241). -/
def SAMPLE_SIZE : ℕ := 25

/-- Normalization `text.strip().lower()[:100]` (app.py lines 279 and 388): strip
whitespace at both ends, lowercase (ASCII model of `str.lower`), keep the
first 100 characters.  Written on the character list so that it evaluates
by kernel reduction. -/
def fingerprint (s : String) : String :=
  String.mk ((((s.data.dropWhile Char.isWhitespace).reverse.dropWhile
    Char.isWhitespace).reverse.map Char.toLower).take 100)

/-- One entry of `live_collection_buffer` / `live_realtime_news`
(app.py lines 285–290). -/
structure Article where
  text : String
  timestamp : ℚ
  analyzed : Bool
  sampled : Bool
deriving DecidableEq, Repr

/-- The collection-window state: `live_collection_buffer`, `seen_texts`
and `live_realtime_news`. -/
structure CollectState where
  buffer : List Article
  seen : List String
  feed : List Article
deriving DecidableEq, Repr

/-- The body of `for text in news_texts` (app.py lines 272–298): skip a
falsy text, drop the text if the buffer is at `MAX_ARTICLES`, skip it if
its fingerprint was already seen, otherwise record the fingerprint and
append the entry to the buffer and to the realtime feed (evicting the
oldest feed entry beyond 50). -/
def addText (st : CollectState) (now : ℚ) (text : String) : CollectState :=
  if text = "" then st
  else if MAX_ARTICLES ≤ st.buffer.length then st
  else
    let key := fingerprint text
    if key ∈ st.seen then st
    else
      let entry : Article := ⟨text, now, false, false⟩
      let feed := st.feed ++ [entry]
      { buffer := st.buffer ++ [entry],
        seen := key :: st.seen,
        feed := if 50 < feed.length then feed.drop 1 else feed }

/-- One fetch's worth of texts pushed through the loop of lines 272–298. -/
def addTexts (st : CollectState) (now : ℚ) (texts : List String) : CollectState :=
  texts.foldl (fun s t => addText s now t) st


/-- A list of 125 pairwise-distinct two-letter texts used to exercise the
`MAX_ARTICLES + 5` capacity scenario. -/
def capTexts : List String :=
  (List.range 125).map
    (fun i => String.mk [Char.ofNat (97 + i / 25), Char.ofNat (97 + i % 25)])

/-- Invariant of the collection buffer within one window: fingerprints are
pairwise distinct, every buffered fingerprint has been recorded in
`seen_texts`, and the buffer is within capacity. -/
def BufferInv (st : CollectState) : Prop :=
  (st.buffer.map (fun a => fingerprint a.text)).Nodup
  ∧ (∀ a ∈ st.buffer, fingerprint a.text ∈ st.seen)
  ∧ st.buffer.length ≤ MAX_ARTICLES

theorem addText_inv (st : CollectState) (now : ℚ) (t : String)
    (h : BufferInv st) : BufferInv (addText st now t) := by
  obtain ⟨hnd, hseen, hlen⟩ := h
  simp only [addText]
  split_ifs with h1 h2 h3 h4 <;> try exact ⟨hnd, hseen, hlen⟩
  all_goals
    push_neg at h2
    refine ⟨?_, ?_, ?_⟩
    · simp only [List.map_append, List.map_cons, List.map_nil,
        List.nodup_append, List.nodup_cons, List.not_mem_nil,
        not_false_iff, List.nodup_nil, true_and, and_true]
      refine ⟨hnd, ?_⟩
      intro x hx
      simp only [List.mem_singleton]
      obtain ⟨a, ha, rfl⟩ := List.mem_map.mp hx
      intro hcontra
      exact h3 (hcontra ▸ hseen a ha)
    · intro a ha
      rcases List.mem_append.mp ha with hmem | hmem
      · exact List.mem_cons_of_mem _ (hseen a hmem)
      · simp only [List.mem_singleton] at hmem
        subst hmem
        exact List.mem_cons_self _ _
    · simp only [List.length_append, List.length_cons, List.length_nil]
      omega

theorem addTexts_inv (st : CollectState) (now : ℚ) (ts : List String)
    (h : BufferInv st) : BufferInv (addTexts st now ts) := by
  induction ts generalizing st with
  | nil => exact h
  | cons t ts ih => exact ih _ (addText_inv st now t h)

theorem addText_fresh_buffer (st : CollectState) (now : ℚ) (t : String)
    (ht : t ≠ "") (hfull : ¬ MAX_ARTICLES ≤ st.buffer.length)
    (hkey : fingerprint t ∉ st.seen) :
    (addText st now t).buffer = st.buffer ++ [⟨t, now, false, false⟩]
    ∧ (addText st now t).seen = fingerprint t :: st.seen := by
  simp [addText, ht, hfull, hkey]

theorem addText_seen_dup (st : CollectState) (now : ℚ) (t : String)
    (hkey : fingerprint t ∈ st.seen) : addText st now t = st := by
  simp only [addText]
  split_ifs with h1 h2 h3 <;> first | rfl | exact absurd hkey h3

/-- C3: within one collection window the dedup invariant (pairwise-distinct
fingerprints, size ≤ `MAX_ARTICLES = 120`) is preserved by the fetch loop;
a text at `MAX_ARTICLES` capacity is dropped without evicting anything;
adding two texts with the same normalized fingerprint adds exactly one
record; and pushing `MAX_ARTICLES + 5` distinct texts into an empty window
leaves exactly `MAX_ARTICLES` records. -/
theorem C3_dedup_buffer_cap (st : CollectState) (now : ℚ) (ts : List String)
    (t1 t2 : String) (hinv : BufferInv st)
    (hfp : fingerprint t1 = fingerprint t2) (ht1 : t1 ≠ "") (ht2 : t2 ≠ "")
    (hnew : fingerprint t1 ∉ st.seen)
    (hroom : st.buffer.length < MAX_ARTICLES) :
    BufferInv (addTexts st now ts)
    ∧ (∀ u : String, MAX_ARTICLES ≤ st.buffer.length → addText st now u = st)
    ∧ (addTexts st now [t1, t2]).buffer.length = st.buffer.length + 1
    ∧ MAX_ARTICLES = 120
    ∧ capTexts.length = MAX_ARTICLES + 5
    ∧ (capTexts.map fingerprint).Nodup
    ∧ (addTexts ⟨[], [], []⟩ 0 capTexts).buffer.length = MAX_ARTICLES := by
  refine ⟨addTexts_inv st now ts hinv, ?_, ?_, rfl, by decide, by decide,
    by decide⟩
  · intro u hfull
    simp only [addText]
    split_ifs with h1 h2 h3 <;> first | rfl | exact absurd hfull h2
  · have hfull : ¬ MAX_ARTICLES ≤ st.buffer.length := not_le.mpr hroom
    obtain ⟨hbuf1, hseen1⟩ := addText_fresh_buffer st now t1 ht1 hfull hnew
    have hdup : addText (addText st now t1) now t2 = addText st now t1 := by
      apply addText_seen_dup
      rw [hseen1, ← hfp]
      exact List.mem_cons_self _ _
    show (addText (addText st now t1) now t2).buffer.length = _
    rw [hdup, hbuf1]
    simp

/-- Witness for C3 at a concrete input. -/
theorem C3_dedup_buffer_cap_witness :
    (BufferInv ⟨[], [], []⟩
     ∧ fingerprint "Btc Rallies" = fingerprint " btc rallies"
     ∧ "Btc Rallies" ≠ "" ∧ " btc rallies" ≠ ""
     ∧ fingerprint "Btc Rallies" ∉ (⟨[], [], []⟩ : CollectState).seen
     ∧ (⟨[], [], []⟩ : CollectState).buffer.length < MAX_ARTICLES)
    ∧ BufferInv (addTexts ⟨[], [], []⟩ 0 ["Btc Rallies"])
    ∧ (addTexts ⟨[], [], []⟩ 0 ["Btc Rallies", " btc rallies"]).buffer.length
        = (⟨[], [], []⟩ : CollectState).buffer.length + 1 := by
  have h := C3_dedup_buffer_cap ⟨[], [], []⟩ 0 ["Btc Rallies"]
    "Btc Rallies" " btc rallies"
    (by unfold BufferInv; refine ⟨by decide, by decide, by decide⟩)
    (by decide) (by decide) (by decide) (by decide) (by decide)
  exact ⟨⟨by unfold BufferInv; refine ⟨by decide, by decide, by decide⟩,
    by decide, by decide, by decide, by decide, by decide⟩, h.1, h.2.2.1⟩

/-! ## app.py — live automation: interval rollover (lines 303–422)

The end-of-interval branch of `live_automation_background_task`.  The two
external effects — `random.sample(live_collection_buffer, pick_count)` and
`analyze_batch(sampled_texts)` — are passed in as the arguments `sampled`
and `sentiments`.  Python's `zip` truncates to the shorter list, as
`List.zip` does. -/

/-- Classifier output, one per text: `{"label": str, "confidence": float}`
(sentiment.py `analyze_batch`). -/
structure LiveSentiment where
  label : String
  confidence : ℚ
deriving DecidableEq, Repr

/-- Per-article score used by the live path (app.py lines 331–336):
`50 + conf*50` for positive, `50 - conf*50` for negative, `50` otherwise. -/
def articleScore (sent : LiveSentiment) : ℚ :=
  if sent.label = "positive" then 50 + sent.confidence * 50
  else if sent.label = "negative" then 50 - sent.confidence * 50
  else 50

/-- One element of `analyzed_articles` (app.py lines 338–345). -/
structure AnalyzedArticle where
  text : String
  sentiment : LiveSentiment
  score : ℚ
  timestamp : ℚ
  analyzed : Bool
  sampled : Bool
deriving DecidableEq, Repr

/-- The `highest_tweet` / `lowest_tweet` sub-dict (app.py lines 369–380). -/
structure TweetRef where
  text : String
  score : ℚ
  label : String
  confidence : ℚ
deriving DecidableEq, Repr

/-- One entry of `live_history` as built by the rollover (lines 360–382,
404–414).  Fields that only one branch fills are `Option`s.  The per-item
`sentiment`/`score` keys attached to realtime-feed dicts for UI display are
outside the modelled `Article` fields. -/
structure HistEntry where
  score : ℚ
  raw_score : ℚ
  classification : String
  timestamp : ℚ
  sample_size : ℕ
  total_collected : ℕ
  source : String
  interval : String
  highest_tweet : Option TweetRef
  lowest_tweet : Option TweetRef
  sampled_articles : Option (List AnalyzedArticle)
  message : Option String
deriving DecidableEq, Repr

/-- Python's `max(l, key=score)` starting from `a`: first maximum wins. -/
def maxByScore (a : AnalyzedArticle) (l : List AnalyzedArticle) :
    AnalyzedArticle :=
  l.foldl (fun best x => if best.score < x.score then x else best) a

/-- Python's `min(l, key=score)` starting from `a`: first minimum wins. -/
def minByScore (a : AnalyzedArticle) (l : List AnalyzedArticle) :
    AnalyzedArticle :=
  l.foldl (fun best x => if x.score < best.score then x else best) a

/-- The scheduler-visible state mutated by the rollover branch:
collection window contents, `live_history`, and `live_collection_start`. -/
structure SchedState where
  collect : CollectState
  history : List HistEntry
  collectionStart : ℚ
deriving DecidableEq, Repr

/-- The rollover check of `live_automation_background_task`
(app.py lines 303–422), as a function of the current tick time `now`.
If the window has not elapsed, or has elapsed with fewer than
`MIN_ARTICLES` buffered (lines 309–312), the state is returned unchanged
(the loop just sleeps and continues).  Otherwise the sampled texts are
scored, a history entry is appended, sampled feed entries are flagged, and
the buffer, dedup set and window start are reset (lines 419–422). -/
def rolloverCheck (st : SchedState) (now : ℚ) (intervalSeconds : ℚ)
    (interval : String) (sampled : List Article)
    (sentiments : List LiveSentiment) : SchedState :=
  if intervalSeconds ≤ now - st.collectionStart then
    if st.collect.buffer.length < MIN_ARTICLES then st
    else if 0 < st.collect.buffer.length then
      let buffer_size := st.collect.buffer.length
      let pick_count := min SAMPLE_SIZE buffer_size
      let sampled_texts := sampled.map (fun a => a.text)
      let analyzed_articles := (sampled_texts.zip sentiments).map (fun p =>
        ({ text := p.1, sentiment := p.2, score := articleScore p.2,
           timestamp := now, analyzed := true, sampled := true }
          : AnalyzedArticle))
      let scores := analyzed_articles.map (fun a => a.score)
      let avg_score := scores.sum / (scores.length : ℚ)
      let classification := liveClassify avg_score
      let best := match analyzed_articles with
        | [] => none
        | a :: l => some (maxByScore a l)
      let worst := match analyzed_articles with
        | [] => none
        | a :: l => some (minByScore a l)
      let result : HistEntry :=
        { score := round2 avg_score, raw_score := round2 avg_score,
          classification := classification, timestamp := now,
          sample_size := pick_count, total_collected := buffer_size,
          source := "Live News (" ++ interval ++ ")", interval := interval,
          highest_tweet := best.map (fun b =>
            ⟨b.text, b.score, b.sentiment.label, b.sentiment.confidence⟩),
          lowest_tweet := worst.map (fun b =>
            ⟨b.text, b.score, b.sentiment.label, b.sentiment.confidence⟩),
          sampled_articles := some analyzed_articles, message := none }
      let sampledKeys := (sampled_texts.filter (fun t => !(t == ""))).map
        fingerprint
      let feed := st.collect.feed.map (fun art =>
        if art.text = "" then art
        else if sampledKeys.contains (fingerprint art.text) then
          if (analyzed_articles.map (fun a => a.text)).contains art.text then
            { art with analyzed := true, sampled := true }
          else art
        else art)
      { collect := { buffer := [], seen := [], feed := feed },
        history := st.history ++ [result],
        collectionStart := now }
    else
      let prev := match st.history.getLast? with
        | some e => e.score
        | none => 50
      let result : HistEntry :=
        { score := prev, raw_score := prev, classification := "Neutral",
          timestamp := now, sample_size := 0, total_collected := 0,
          source := "Live News (" ++ interval ++ ")", interval := interval,
          highest_tweet := none, lowest_tweet := none,
          sampled_articles := none,
          message := some "No articles in this interval" }
      { collect := { buffer := [], seen := [], feed := st.collect.feed },
        history := st.history ++ [result],
        collectionStart := now }
  else st

/-- C4: rollover happens only when the window has elapsed at least the
interval duration AND the buffer holds at least `MIN_ARTICLES = 30`
records; an expired window with a buffer below the minimum leaves the
whole state — history, buffer contents, dedup set, window start —
unchanged, while a satisfied rollover appends exactly one history entry,
empties the buffer and dedup set, and restarts the window at `now`. -/
theorem C4_rollover_gating (st : SchedState) (now ivl : ℚ)
    (interval : String) (sampled : List Article)
    (sents : List LiveSentiment) :
    MIN_ARTICLES = 30
    ∧ (now - st.collectionStart < ivl →
        rolloverCheck st now ivl interval sampled sents = st)
    ∧ (ivl ≤ now - st.collectionStart →
        st.collect.buffer.length < MIN_ARTICLES →
        rolloverCheck st now ivl interval sampled sents = st)
    ∧ (ivl ≤ now - st.collectionStart →
        MIN_ARTICLES ≤ st.collect.buffer.length →
        (rolloverCheck st now ivl interval sampled sents).history.length
            = st.history.length + 1
        ∧ (rolloverCheck st now ivl interval sampled sents).collect.buffer = []
        ∧ (rolloverCheck st now ivl interval sampled sents).collect.seen = []
        ∧ (rolloverCheck st now ivl interval sampled sents).collectionStart
            = now) := by
  refine ⟨rfl, ?_, ?_, ?_⟩
  · intro h
    simp only [rolloverCheck]
    rw [if_neg (not_le.mpr h)]
  · intro h hlt
    simp only [rolloverCheck]
    rw [if_pos h, if_pos hlt]
  · intro h hge
    have h0 : ¬ st.collect.buffer.length < MIN_ARTICLES := not_lt.mpr hge
    have hpos : 0 < st.collect.buffer.length :=
      lt_of_lt_of_le (by norm_num [MIN_ARTICLES]) hge
    simp only [rolloverCheck]
    rw [if_pos h, if_neg h0, if_pos hpos]
    exact ⟨by simp, rfl, rfl, rfl⟩

/-- Witness for C4, applying the theorem at three concrete states: an
unexpired window, an expired window with 20 buffered articles, and an
expired window with 30 buffered articles. -/
theorem C4_rollover_gating_witness :
    ((100 : ℚ) - 0 < 200
      ∧ rolloverCheck ⟨⟨[], [], []⟩, [], 0⟩ 100 200 "1min" [] [] =
          ⟨⟨[], [], []⟩, [], 0⟩)
    ∧ ((60 : ℚ) ≤ 100 - 0
      ∧ (⟨⟨List.replicate 20 ⟨"x", 0, false, false⟩, [], []⟩, [], 0⟩
          : SchedState).collect.buffer.length < MIN_ARTICLES
      ∧ rolloverCheck ⟨⟨List.replicate 20 ⟨"x", 0, false, false⟩, [], []⟩,
            [], 0⟩ 100 60 "1min" [] []
          = ⟨⟨List.replicate 20 ⟨"x", 0, false, false⟩, [], []⟩, [], 0⟩)
    ∧ ((60 : ℚ) ≤ 100 - 0
      ∧ MIN_ARTICLES ≤ (⟨⟨List.replicate 30 ⟨"x", 0, false, false⟩, [], []⟩,
            [], 0⟩ : SchedState).collect.buffer.length
      ∧ (rolloverCheck ⟨⟨List.replicate 30 ⟨"x", 0, false, false⟩, [], []⟩,
            [], 0⟩ 100 60 "1min" [] []).history.length
          = (⟨⟨List.replicate 30 ⟨"x", 0, false, false⟩, [], []⟩, [], 0⟩
              : SchedState).history.length + 1) := by
  refine ⟨⟨by norm_num, ?_⟩, ⟨by norm_num, by simp [MIN_ARTICLES], ?_⟩,
    ⟨by norm_num, by simp [MIN_ARTICLES], ?_⟩⟩
  · exact (C4_rollover_gating ⟨⟨[], [], []⟩, [], 0⟩ 100 200 "1min" [] []).2.1
      (by norm_num)
  · exact (C4_rollover_gating _ 100 60 "1min" [] []).2.2.1 (by norm_num)
      (by simp [MIN_ARTICLES])
  · exact ((C4_rollover_gating _ 100 60 "1min" [] []).2.2.2 (by norm_num)
      (by simp [MIN_ARTICLES])).1

/-! ## news_data.py — interval table -/

/-- Table `TIME_INTERVALS` (news_data.py lines 19–27). -/
def TIME_INTERVALS : List (String × ℕ) :=
  [("30s", 30), ("1min", 60), ("2min", 120), ("5min", 300),
   ("10min", 600), ("30min", 1800), ("1hr", 3600)]

/-- Function `get_interval_seconds` (news_data.py lines 133–135):
`TIME_INTERVALS.get(interval_key, 60)` — silently defaults to 1 minute. -/
def get_interval_seconds (interval_key : String) : ℕ :=
  (TIME_INTERVALS.lookup interval_key).getD 60

/-- Function `get_available_intervals` (news_data.py lines 138–140). -/
def get_available_intervals : List (String × ℕ) := TIME_INTERVALS

/-! ## app.py — automation controller (lines 442–472)

`asyncio.create_task` is modelled by allocating the fresh id `nextId`;
the set of asyncio tasks that have been created and not yet cancelled is
tracked explicitly in `running` (cancelling a task removes its id). -/

/-- The automation lifecycle state: the module globals
`live_automation_active`, `live_automation_interval`,
`live_automation_task`, together with the explicit model of live
background tasks. -/
structure AutomationState where
  active : Bool
  interval : String
  task : Option ℕ
  running : List ℕ
  nextId : ℕ
deriving DecidableEq, Repr

/-- The dict returned by `stop_live_automation`. -/
structure StopResult where
  status : String
  message : Option String
deriving DecidableEq, Repr

/-- The dict returned by `start_live_automation` (it has no error path). -/
structure StartResult where
  status : String
  interval : String
deriving DecidableEq, Repr

/-- Function `stop_live_automation` (app.py lines 458–472). -/
def stop_live_automation (st : AutomationState) :
    AutomationState × StopResult :=
  if st.active = false ∧ st.task = none then
    (st, ⟨"stopped", some "Was not running"⟩)
  else
    let st1 := { st with active := false }
    match st1.task with
    | some t =>
      ({ st1 with task := none, running := st1.running.erase t },
       ⟨"stopped", none⟩)
    | none => (st1, ⟨"stopped", none⟩)

/-- Function `start_live_automation` (app.py lines 442–455): if already active,
stop the previous instance first, then flip the flag, record the interval
and spawn the background task. -/
def start_live_automation (st : AutomationState) (interval : String)
    (query : Option String) : AutomationState × StartResult :=
  let st1 := if st.active then (stop_live_automation st).1 else st
  ({ st1 with
      active := true
      interval := interval
      task := some st1.nextId
      running := st1.running ++ [st1.nextId]
      nextId := st1.nextId + 1 },
   ⟨"started", interval⟩)

/-- Well-formedness of the automation state: the live background tasks
are exactly the current handle when active and none when inactive, and
any handle id was allocated by the counter. -/
def AutoInv (st : AutomationState) : Prop :=
  st.running = (if st.active then st.task.toList else [])
  ∧ (∀ t, st.task = some t → t < st.nextId)

theorem stop_shape (st : AutomationState) (hinv : AutoInv st) :
    (stop_live_automation st).1
      = ⟨false, st.interval, none, [], st.nextId⟩ := by
  obtain ⟨hrun, _⟩ := hinv
  cases st with
  | mk active interval task running nextId =>
    simp only at hrun
    rcases task with _ | t <;> cases active <;>
      simp_all [stop_live_automation, List.erase_cons]

theorem start_shape (st : AutomationState) (i : String) (q : Option String)
    (hinv : AutoInv st) :
    (start_live_automation st i q).1
      = ⟨true, i, some st.nextId, [st.nextId], st.nextId + 1⟩ := by
  have hs := stop_shape st hinv
  obtain ⟨hrun, hid⟩ := hinv
  unfold start_live_automation
  by_cases h : st.active
  · rw [if_pos h, hs]
    rfl
  · rw [if_neg h]
    rw [if_neg (by simpa using h)] at hrun
    cases st with
    | mk active interval task running nextId =>
      simp only at hrun
      subst hrun
      rfl

/-- C5: starting while active first fully stops the previous instance
(clears the flag and releases the handle) before the new one is created;
from any well-formed state a start leaves exactly one live background
unit, starting twice in a row still leaves exactly one live unit with the
first instance's task cancelled, and a start never returns an error. -/
theorem C5_single_live_scheduler (st : AutomationState) (i1 i2 : String)
    (q1 q2 : Option String) (hinv : AutoInv st) :
    (start_live_automation st i1 q1).2 = ⟨"started", i1⟩
    ∧ (st.active = true →
        (stop_live_automation st).1.active = false
        ∧ (stop_live_automation st).1.task = none
        ∧ (start_live_automation st i1 q1).1
            = (start_live_automation (stop_live_automation st).1 i1 q1).1)
    ∧ AutoInv (start_live_automation st i1 q1).1
    ∧ (start_live_automation st i1 q1).1.active = true
    ∧ (start_live_automation st i1 q1).1.running.length = 1
    ∧ (start_live_automation
        (start_live_automation st i1 q1).1 i2 q2).1.running.length = 1
    ∧ (∀ t, (start_live_automation st i1 q1).1.task = some t →
        t ∉ (start_live_automation
              (start_live_automation st i1 q1).1 i2 q2).1.running) := by
  have h1 := start_shape st i1 q1 hinv
  have hinv1 : AutoInv (start_live_automation st i1 q1).1 := by
    rw [h1]
    exact ⟨by simp, by simp⟩
  have h2 := start_shape (start_live_automation st i1 q1).1 i2 q2 hinv1
  refine ⟨rfl, ?_, hinv1, by rw [h1], by rw [h1]; rfl, ?_, ?_⟩
  case refine_2 =>
    rw [h2]
    rfl
  · intro ha
    have hs := stop_shape st hinv
    refine ⟨by rw [hs], by rw [hs], ?_⟩
    have hinvS : AutoInv (stop_live_automation st).1 := by
      rw [hs]
      exact ⟨by simp, by simp⟩
    rw [h1, start_shape (stop_live_automation st).1 i1 q1 hinvS, hs]
  · intro t ht
    rw [h1] at ht
    rw [h2, h1]
    simp only [Option.some.injEq] at ht
    simp [← ht]

/-- Witness for C5 at a concrete inactive and a concrete active state. -/
theorem C5_single_live_scheduler_witness :
    AutoInv ⟨false, "1min", none, [], 0⟩
    ∧ (start_live_automation ⟨false, "1min", none, [], 0⟩ "1min" none).2
        = ⟨"started", "1min"⟩
    ∧ (start_live_automation
        (start_live_automation ⟨false, "1min", none, [], 0⟩ "1min" none).1
        "5min" none).1.running.length = 1
    ∧ AutoInv ⟨true, "1min", some 0, [0], 1⟩
    ∧ ((⟨true, "1min", some 0, [0], 1⟩ : AutomationState).active = true →
        (stop_live_automation ⟨true, "1min", some 0, [0], 1⟩).1.active = false
        ∧ (stop_live_automation ⟨true, "1min", some 0, [0], 1⟩).1.task = none
        ∧ (start_live_automation ⟨true, "1min", some 0, [0], 1⟩ "2min" none).1
            = (start_live_automation
                (stop_live_automation ⟨true, "1min", some 0, [0], 1⟩).1
                "2min" none).1) := by
  have hA : AutoInv ⟨false, "1min", none, [], 0⟩ := ⟨by simp, by simp⟩
  have hB : AutoInv ⟨true, "1min", some 0, [0], 1⟩ := ⟨by simp, by simp⟩
  have w1 := C5_single_live_scheduler ⟨false, "1min", none, [], 0⟩
    "1min" "5min" none none hA
  have w2 := C5_single_live_scheduler ⟨true, "1min", some 0, [0], 1⟩
    "2min" "2min" none none hB
  exact ⟨hA, w1.1, w1.2.2.2.2.2.1, hB, w2.2.1⟩

/-! ## app.py — automation control endpoint (lines 618–663) -/

/-- The JSON responses of `POST /api/live/automation`. -/
inductive ControlResponse where
  | err (message : String)
  | started (message : String) (interval : String) (interval_seconds : ℕ)
      (active : Bool)
  | stopped (message : String) (active : Bool)
deriving DecidableEq, Repr

/-- Function `control_live_automation` (app.py lines 618–663).  The handler never
touches the scheduler-visible state (history, buffer, window), so that
state is threaded through unchanged; the spawned background task mutates
it only on its own later ticks.  The `if "error" in result` checks of
lines 639–640 and 651–652 are dead code — neither `start_live_automation`
nor `stop_live_automation` can return an error key — and are omitted.
(The Python error strings also embed the available key list / quoted
action names; the quoting is elided here.) -/
def control_live_automation (auto : AutomationState) (sched : SchedState)
    (newsConfigured : Bool) (action interval : String)
    (query : Option String) :
    (AutomationState × SchedState) × ControlResponse :=
  if newsConfigured = false then
    ((auto, sched),
     .err "News API key not configured. Add NEWS_API_KEY to your .env file.")
  else if action = "start" then
    if (get_available_intervals.lookup interval).isNone then
      ((auto, sched),
       .err ("Invalid interval. Available: "
         ++ toString (get_available_intervals.map (fun p => p.1))))
    else
      (((start_live_automation auto interval query).1, sched),
       .started ("Live automation started with " ++ interval
           ++ " aggregation interval") interval
         (get_interval_seconds interval) true)
  else if action = "stop" then
    (((stop_live_automation auto).1, sched),
     .stopped "Live automation stopped" false)
  else
    ((auto, sched), .err "Invalid action. Use start or stop.")

/-- C9: a start request with an unknown interval key returns an error
response and leaves every piece of automation state — controller state,
history, buffer, window — exactly as it was, and the raw default of
`get_interval_seconds` (60) never reaches a started response: every
started response carries the table value of its (valid) key. -/
theorem C9_unknown_interval_rejected (auto : AutomationState)
    (sched : SchedState) (interval : String) (q : Option String)
    (hbad : TIME_INTERVALS.lookup interval = none) :
    (control_live_automation auto sched true "start" interval q).1
        = (auto, sched)
    ∧ (∃ msg, (control_live_automation auto sched true "start" interval q).2
        = .err msg)
    ∧ get_interval_seconds interval = 60
    ∧ (∀ i2 n, TIME_INTERVALS.lookup i2 = some n →
        get_interval_seconds i2 = n
        ∧ (control_live_automation auto sched true "start" i2 q).2
            = .started ("Live automation started with " ++ i2
                ++ " aggregation interval") i2 n true) := by
  refine ⟨?_, ?_, ?_, ?_⟩
  · simp [control_live_automation, get_available_intervals, hbad]
  · exact ⟨"Invalid interval. Available: "
        ++ toString (get_available_intervals.map (fun p => p.1)),
      by simp [control_live_automation, get_available_intervals, hbad]⟩
  · simp [get_interval_seconds, hbad]
  · intro i2 n hn
    constructor
    · simp [get_interval_seconds, hn]
    · simp [control_live_automation, get_available_intervals, hn,
        get_interval_seconds]

/-- Witness for C9 at the unknown key `"2hr"` and the valid key `"1min"`. -/
theorem C9_unknown_interval_rejected_witness :
    TIME_INTERVALS.lookup "2hr" = none
    ∧ (control_live_automation ⟨false, "1min", none, [], 0⟩
          ⟨⟨[], [], []⟩, [], 0⟩ true "start" "2hr" none).1
        = (⟨false, "1min", none, [], 0⟩, ⟨⟨[], [], []⟩, [], 0⟩)
    ∧ (∃ msg, (control_live_automation ⟨false, "1min", none, [], 0⟩
          ⟨⟨[], [], []⟩, [], 0⟩ true "start" "2hr" none).2 = .err msg)
    ∧ TIME_INTERVALS.lookup "1min" = some 60
    ∧ get_interval_seconds "1min" = 60
    ∧ (control_live_automation ⟨false, "1min", none, [], 0⟩
          ⟨⟨[], [], []⟩, [], 0⟩ true "start" "1min" none).2
        = .started ("Live automation started with " ++ "1min"
            ++ " aggregation interval") "1min" 60 true := by
  have h := C9_unknown_interval_rejected ⟨false, "1min", none, [], 0⟩
    ⟨⟨[], [], []⟩, [], 0⟩ "2hr" none (by decide)
  have h2 := h.2.2.2 "1min" 60 (by decide)
  exact ⟨by decide, h.1, h.2.1, by decide, h2.1, h2.2⟩

/-! ## app.py — contribute scan (lines 706–804) -/

/-- One buffered article of the contribute scan (app.py line 742). -/
structure ScanItem where
  text : String
  title : String
deriving DecidableEq, Repr

/-- The terminal `contribute_scan_result` dict (`score := none` models
`"score": None`; keys a branch does not set are `none`). -/
structure ScanResult where
  error : Option String
  score : Option ℚ
  classification : Option String
  sample_size : Option ℕ
  total_collected : Option ℕ
deriving DecidableEq, Repr

/-- A result dict as read by the contribute scan.  The scan reads
`r["score"]` (app.py line 775) — a key `analyze_batch` (sentiment.py
lines 44–93) never produces, so the read is modelled as an `Option`
that falls into the generic exception handler when absent. -/
structure ContribSentiment where
  label : String
  confidence : ℚ
  score : Option ℚ
deriving DecidableEq, Repr

/-- The sample-and-analyse tail of `contribute_scan_task_fn`
(app.py lines 758–804), entered when the fixed 60-second duration has
elapsed (or the active flag was dropped).  Returns the terminal
`contribute_scan_result` and the terminal `progress["phase"]`.
`sampled` stands for `random.sample(buffer, pick_count)` and `results`
for `analyze_batch` on its texts; a missing `"score"` key in any result
raises and lands in the handler of lines 795–801 (message elided). -/
def scanFinish (buffer : List ScanItem) (sampled : List ScanItem)
    (results : List ContribSentiment) : ScanResult × String :=
  if buffer.length < 5 then
    (⟨some "Not enough articles collected", none, none, none, none⟩,
     "error")
  else
    let pick_count := min SAMPLE_SIZE buffer.length
    match (results.map (fun r => r.score)).mapM id with
    | none => (⟨some "KeyError: score", none, none, none, none⟩, "error")
    | some scores =>
      let avg_score := round2 (scores.sum / (scores.length : ℚ))
      let classification := liveClassify avg_score
      (⟨none, some avg_score, some classification, some pick_count,
        some buffer.length⟩, "done")

/-- C8: a scan whose fixed duration expires with fewer than the hard
floor of 5 collected texts produces no score: the terminal result is
`error = "Not enough articles collected"` with `score = null`, and the
progress phase ends in the `"error"` terminal state. -/
theorem C8_scan_insufficient_data (buffer sampled : List ScanItem)
    (results : List ContribSentiment) (h : buffer.length < 5) :
    scanFinish buffer sampled results
      = (⟨some "Not enough articles collected", none, none, none, none⟩,
         "error")
    ∧ (scanFinish buffer sampled results).1.score = none := by
  unfold scanFinish
  rw [if_pos h]
  exact ⟨rfl, rfl⟩

/-- Witness for C8 at a concrete 3-article buffer. -/
theorem C8_scan_insufficient_data_witness :
    ([⟨"a", "a"⟩, ⟨"b", "b"⟩, ⟨"c", "c"⟩] : List ScanItem).length < 5
    ∧ (scanFinish [⟨"a", "a"⟩, ⟨"b", "b"⟩, ⟨"c", "c"⟩] [] []
        = (⟨some "Not enough articles collected", none, none, none, none⟩,
           "error")
    ∧ (scanFinish [⟨"a", "a"⟩, ⟨"b", "b"⟩, ⟨"c", "c"⟩] [] []).1.score
        = none) :=
  ⟨by decide,
   C8_scan_insufficient_data [⟨"a", "a"⟩, ⟨"b", "b"⟩, ⟨"c", "c"⟩] [] []
     (by decide)⟩

end SenTrack
